import Mathlib

/-!
Verification of the debounced detection state machine and integrity
scoring engine of the video proctoring system.

The definitions below are shallow embeddings of the TypeScript source:
- DetectionEventType, DetectionEvent        from src/lib/detection.ts
- FaceState, detectFacesStep, thresholds    from DetectionSystem in src/lib/detection.ts
- classifyObject, detectObjects             from DetectionSystem.detectObjects
- basicFaceDetection, fallback variant      from the unnamed duplicate of the
  detection module (src/unnamed/part_000), whose catch handler falls back to a
  randomized simulation; the random draws are made explicit parameters
- deduction, applyEvent                     from the detection event callback in
  src/app/(interview)/room/[roomId]/page.tsx
- eventCounts, totalEvents                  from saveData in src/lib/actions/interview-actions.ts
- interpretation                            from generatePDF in src/lib/actions/interview-actions.ts

Timestamps are modelled as integers (milliseconds), confidences and pixel
coordinates as rationals.
-/

/-- The closed enumeration of detection event types, from src/lib/detection.ts. -/
inductive DetectionEventType where
  | FOCUS_LOST
  | NO_FACE
  | MULTIPLE_FACES
  | PHONE_DETECTED
  | NOTES_DETECTED
  | BOOK_DETECTED
  deriving DecidableEq, Repr

/-- A detection event: type, timestamp (ms), confidence, from src/lib/detection.ts. -/
structure DetectionEvent where
  type : DetectionEventType
  timestamp : Int
  confidence : ℚ
  deriving DecidableEq, Repr

/-- The per-event score deduction applied by the detection event callback in
src/app/(interview)/room/[roomId]/page.tsx (the switch on event.type). -/
def deduction : DetectionEventType → Int
  | .FOCUS_LOST => 5
  | .NO_FACE => 10
  | .MULTIPLE_FACES => 15
  | .PHONE_DETECTED => 20
  | .NOTES_DETECTED => 15
  | .BOOK_DETECTED => 15

/-- One score update: setIntegrityScore(prev => Math.max(0, prev - deduction)). -/
def applyEvent (score : Int) (t : DetectionEventType) : Int :=
  max 0 (score - deduction t)

/-- The score after a whole sequence of events, starting from a given score.
The room page initializes integrityScore with useState(100). -/
def applyEvents (score : Int) (ts : List DetectionEventType) : Int :=
  ts.foldl applyEvent score

/-- The score interpretation computed in generatePDF
(src/lib/actions/interview-actions.ts): a chain of lower-bound tests. -/
def interpretation (score : Int) : String :=
  if score ≥ 90 then "Excellent - Highly trustworthy performance"
  else if score ≥ 75 then "Good - Acceptable with minor concerns"
  else if score ≥ 60 then "Average - Some compliance issues detected"
  else if score ≥ 40 then "Poor - Multiple policy violations"
  else "Critical - Severe integrity concerns"

lemma deduction_pos (t : DetectionEventType) : 0 < deduction t := by
  cases t <;> decide

lemma applyEvent_nonneg (s : Int) (t : DetectionEventType) : 0 ≤ applyEvent s t :=
  le_max_left 0 _

lemma applyEvent_le_self (s : Int) (t : DetectionEventType) (h : 0 ≤ s) :
    applyEvent s t ≤ s := by
  have := deduction_pos t
  unfold applyEvent
  omega

lemma applyEvent_le_100 (s : Int) (t : DetectionEventType) (h : s ≤ 100) :
    applyEvent s t ≤ 100 := by
  have := deduction_pos t
  unfold applyEvent
  omega

lemma applyEvents_nonneg (l : List DetectionEventType) (s : Int) (h : 0 ≤ s) :
    0 ≤ applyEvents s l := by
  induction l generalizing s with
  | nil => exact h
  | cons t l ih => exact ih _ (applyEvent_nonneg s t)

lemma applyEvents_le_100 (l : List DetectionEventType) (s : Int) (h : s ≤ 100) :
    applyEvents s l ≤ 100 := by
  induction l generalizing s with
  | nil => exact h
  | cons t l ih => exact ih _ (applyEvent_le_100 s t h)

lemma applyEvents_le_self (l : List DetectionEventType) (s : Int) (h : 0 ≤ s) :
    applyEvents s l ≤ s := by
  induction l generalizing s with
  | nil => exact le_refl s
  | cons t l ih =>
      calc applyEvents (applyEvent s t) l ≤ applyEvent s t :=
              ih _ (applyEvent_nonneg s t)
        _ ≤ s := applyEvent_le_self s t h

/-- C1: for every sequence of violation events applied to a session that starts
with score 100, the integrity score after each application (i.e. after every
prefix of the sequence) lies in 0..100, and extending the sequence never
increases the score (monotone non-increase at every step). -/
theorem score_invariant (l l1 l2 : List DetectionEventType) (h : l = l1 ++ l2) :
    0 ≤ applyEvents 100 l ∧ applyEvents 100 l ≤ 100 ∧
    applyEvents 100 l ≤ applyEvents 100 l1 := by
  subst h
  refine ⟨applyEvents_nonneg _ 100 (by norm_num),
          applyEvents_le_100 _ 100 (by norm_num), ?_⟩
  unfold applyEvents
  rw [List.foldl_append]
  exact applyEvents_le_self l2 _ (applyEvents_nonneg l1 100 (by norm_num))

/-- Witness for C1 at a concrete event sequence. -/
theorem score_invariant_witness :
    ([DetectionEventType.PHONE_DETECTED, DetectionEventType.NO_FACE] =
      [DetectionEventType.PHONE_DETECTED] ++ [DetectionEventType.NO_FACE]) ∧
    (0 ≤ applyEvents 100 [DetectionEventType.PHONE_DETECTED, DetectionEventType.NO_FACE] ∧
     applyEvents 100 [DetectionEventType.PHONE_DETECTED, DetectionEventType.NO_FACE] ≤ 100 ∧
     applyEvents 100 [DetectionEventType.PHONE_DETECTED, DetectionEventType.NO_FACE] ≤
       applyEvents 100 [DetectionEventType.PHONE_DETECTED]) :=
  ⟨rfl, score_invariant _ [DetectionEventType.PHONE_DETECTED] [DetectionEventType.NO_FACE] rfl⟩

/-- C2: one event of kind k takes a score s to max(0, s - d(k)), with the fixed
deduction table FOCUS_LOST=5, NO_FACE=10, MULTIPLE_FACES=15, PHONE_DETECTED=20,
NOTES_DETECTED=15, BOOK_DETECTED=15. -/
theorem deduction_table (s : Int) :
    applyEvent s .FOCUS_LOST = max 0 (s - 5) ∧
    applyEvent s .NO_FACE = max 0 (s - 10) ∧
    applyEvent s .MULTIPLE_FACES = max 0 (s - 15) ∧
    applyEvent s .PHONE_DETECTED = max 0 (s - 20) ∧
    applyEvent s .NOTES_DETECTED = max 0 (s - 15) ∧
    applyEvent s .BOOK_DETECTED = max 0 (s - 15) :=
  ⟨rfl, rfl, rfl, rfl, rfl, rfl⟩

/-- C3: the severity classification is a pure function of the score; on 0..100
each label is produced exactly on its band, so the five bands cover 0..100
with no gaps or overlaps. -/
theorem severity_bands (s : Int) (h0 : 0 ≤ s) (h1 : s ≤ 100) :
    (interpretation s = "Excellent - Highly trustworthy performance" ↔ 90 ≤ s) ∧
    (interpretation s = "Good - Acceptable with minor concerns" ↔ 75 ≤ s ∧ s < 90) ∧
    (interpretation s = "Average - Some compliance issues detected" ↔ 60 ≤ s ∧ s < 75) ∧
    (interpretation s = "Poor - Multiple policy violations" ↔ 40 ≤ s ∧ s < 60) ∧
    (interpretation s = "Critical - Severe integrity concerns" ↔ s < 40) := by
  unfold interpretation
  split_ifs with h90 h75 h60 h40 <;>
    refine ⟨?_, ?_, ?_, ?_, ?_⟩ <;>
    constructor <;>
    intro hh <;>
    first
      | rfl
      | exact absurd hh (by decide)
      | omega

/-- Witness for C3 at score 80. -/
theorem severity_bands_witness :
    (0 : Int) ≤ 80 ∧ (80 : Int) ≤ 100 ∧
    ((interpretation 80 = "Excellent - Highly trustworthy performance" ↔ 90 ≤ (80 : Int)) ∧
     (interpretation 80 = "Good - Acceptable with minor concerns" ↔ 75 ≤ (80 : Int) ∧ (80 : Int) < 90) ∧
     (interpretation 80 = "Average - Some compliance issues detected" ↔ 60 ≤ (80 : Int) ∧ (80 : Int) < 75) ∧
     (interpretation 80 = "Poor - Multiple policy violations" ↔ 40 ≤ (80 : Int) ∧ (80 : Int) < 60) ∧
     (interpretation 80 = "Critical - Severe integrity concerns" ↔ (80 : Int) < 40)) :=
  ⟨by norm_num, by norm_num, severity_bands 80 (by norm_num) (by norm_num)⟩

/-- A face bounding box in frame pixels, as produced by the face detector. -/
structure BoundingBox where
  originX : ℚ
  originY : ℚ
  width : ℚ
  height : ℚ
  deriving DecidableEq, Repr

/-- One detected face: bounding box plus detector confidence. Only the
bounding box is consulted by the detection logic. -/
structure FaceObservation where
  boundingBox : BoundingBox
  confidence : ℚ
  deriving DecidableEq, Repr

/-- The mutable timing fields of DetectionSystem (src/lib/detection.ts):
lastFaceDetectedTime, lastLookingAwayTime, isLookingAway, hasNoFace. -/
structure FaceState where
  lastFaceDetectedTime : Int
  lastLookingAwayTime : Int
  isLookingAway : Bool
  hasNoFace : Bool
  deriving DecidableEq, Repr

/-- FOCUS_LOST_THRESHOLD = 5000 ms. -/
def FOCUS_LOST_THRESHOLD : Int := 5000

/-- NO_FACE_THRESHOLD = 10000 ms. -/
def NO_FACE_THRESHOLD : Int := 10000

/-- FACE_CENTER_THRESHOLD = 0.3 (30 percent deviation from center). -/
def FACE_CENTER_THRESHOLD : ℚ := 3 / 10

/-- The fresh state built at DetectionSystem construction time t0: all timing
fields initialized to Date.now(), both flags false. -/
def initState (t0 : Int) : FaceState :=
  { lastFaceDetectedTime := t0, lastLookingAwayTime := t0,
    isLookingAway := false, hasNoFace := false }

/-- isFaceLookingAtCenter (src/lib/detection.ts): the horizontal deviation of
the face center from the frame center, as a fraction of the frame width, must
be strictly below FACE_CENTER_THRESHOLD. -/
def isFaceLookingAtCenter (face : FaceObservation) (videoWidth : ℚ) : Bool :=
  let faceCenterX := face.boundingBox.originX + face.boundingBox.width / 2
  let videoCenterX := videoWidth / 2
  let deviation := |faceCenterX - videoCenterX| / videoWidth
  decide (deviation < FACE_CENTER_THRESHOLD)

/-- The body of DetectionSystem.detectFaces (src/lib/detection.ts) for one
successful perception result: branches on the number of detected faces,
updates the timing state, and returns the emitted events of this tick. -/
def detectFacesStep (st : FaceState) (faces : List FaceObservation)
    (videoWidth : ℚ) (now : Int) : FaceState × List DetectionEvent :=
  match faces with
  | [] =>
      let st1 := if !st.hasNoFace then
          { st with lastFaceDetectedTime := now, hasNoFace := true }
        else st
      if now - st1.lastFaceDetectedTime > NO_FACE_THRESHOLD then
        ({ st1 with lastFaceDetectedTime := now },
         [{ type := .NO_FACE, timestamp := now, confidence := 9 / 10 }])
      else (st1, [])
  | [face] =>
      let st1 := { st with hasNoFace := false }
      if !(isFaceLookingAtCenter face videoWidth) then
        let st2 := if !st1.isLookingAway then
            { st1 with lastLookingAwayTime := now, isLookingAway := true }
          else st1
        if now - st2.lastLookingAwayTime > FOCUS_LOST_THRESHOLD then
          ({ st2 with lastLookingAwayTime := now },
           [{ type := .FOCUS_LOST, timestamp := now, confidence := 8 / 10 }])
        else (st2, [])
      else ({ st1 with isLookingAway := false }, [])
  | _ =>
      (st, [{ type := .MULTIPLE_FACES, timestamp := now, confidence := 9 / 10 }])

/-- DetectionSystem.detectFaces including its try/catch: on a perception
failure the catch block in src/lib/detection.ts only logs, so the tick yields
no events and leaves the state untouched. -/
def detectFaces (st : FaceState) (perception : Except String (List FaceObservation))
    (videoWidth : ℚ) (now : Int) : FaceState × List DetectionEvent :=
  match perception with
  | .ok faces => detectFacesStep st faces videoWidth now
  | .error _ => (st, [])

/-- Runs detectFacesStep over a list of ticks, each a pair of the observed
faces and the tick time, accumulating emitted events in order. -/
def runTicks (st : FaceState) (videoWidth : ℚ) :
    List (List FaceObservation × Int) → FaceState × List DetectionEvent
  | [] => (st, [])
  | (faces, t) :: rest =>
      let r1 := detectFacesStep st faces videoWidth t
      let r2 := runTicks r1.1 videoWidth rest
      (r2.1, r1.2 ++ r2.2)

/-- A face whose center (850) deviates from the center of a 1000-pixel-wide
frame (500) by 35 percent of the width: off-center for the tracker. -/
def offFace : FaceObservation :=
  { boundingBox := { originX := 800, originY := 0, width := 100, height := 100 },
    confidence := 9 / 10 }

lemma offFace_not_centered : isFaceLookingAtCenter offFace 1000 = false :=
  decide_eq_false (by
    show ¬(|((800 : ℚ) + 100 / 2) - 1000 / 2| / 1000 < 3 / 10)
    rw [show ((800 : ℚ) + 100 / 2) - 1000 / 2 = 350 by norm_num,
        show |(350 : ℚ)| = 350 from abs_of_nonneg (by norm_num)]
    norm_num)

/-- Counterexample to C4: a fresh tracker observing three off-center
single-face ticks at 2-second spacing emits no FOCUS_LOST at all (under either
phasing of the tick times), because the first off-center tick only arms the
timer, so only 4000 ms of deviation have elapsed by the third tick and the
code requires strictly more than 5000 ms. -/
theorem focus_three_ticks_counterexample :
    (runTicks (initState 0) 1000
      [([offFace], 2000), ([offFace], 4000), ([offFace], 6000)]).2 = [] ∧
    (runTicks (initState 0) 1000
      [([offFace], 0), ([offFace], 2000), ([offFace], 4000)]).2 = [] := by
  norm_num [runTicks, detectFacesStep, initState, offFace_not_centered,
            NO_FACE_THRESHOLD, FOCUS_LOST_THRESHOLD]

/-- C4 amended: four off-center single-face ticks at 2-second spacing emit
exactly one FOCUS_LOST, at the 4th tick (6000 ms after the timer was armed at
the first off-center tick), with confidence 0.8, and applying it drops the
score from 100 to 95. -/
theorem focus_four_ticks :
    (runTicks (initState 0) 1000
      [([offFace], 2000), ([offFace], 4000), ([offFace], 6000), ([offFace], 8000)]).2 =
      [{ type := .FOCUS_LOST, timestamp := 8000, confidence := 8 / 10 }] ∧
    applyEvents 100 [.FOCUS_LOST] = 95 := by
  norm_num [runTicks, detectFacesStep, initState, offFace_not_centered,
            NO_FACE_THRESHOLD, FOCUS_LOST_THRESHOLD, applyEvents, applyEvent, deduction]

/-- Counterexample to C5: with the no-face condition active since time 0, a
zero-face tick at exactly now = 10000 (so now - lastGoodTime = 10000 ms, which
is ≥ the threshold as the claim demands) emits nothing and does not re-arm,
because the code tests now - lastFaceDetectedTime > 10000 strictly. -/
theorem no_face_boundary_counterexample :
    detectFacesStep
      { lastFaceDetectedTime := 0, lastLookingAwayTime := 0,
        isLookingAway := false, hasNoFace := true } [] 1000 10000 =
    ({ lastFaceDetectedTime := 0, lastLookingAwayTime := 0,
       isLookingAway := false, hasNoFace := true }, []) := by
  decide

/-- C5 amended: at a zero-face tick with the condition already active and
now - lastGoodTime strictly greater than 10000 ms, exactly one NO_FACE event
with confidence 0.9 is emitted and lastGoodTime is re-armed to now. -/
theorem no_face_emission (st : FaceState) (w : ℚ) (now : Int)
    (h1 : st.hasNoFace = true)
    (h2 : now - st.lastFaceDetectedTime > NO_FACE_THRESHOLD) :
    detectFacesStep st [] w now =
      ({ st with lastFaceDetectedTime := now },
       [{ type := .NO_FACE, timestamp := now, confidence := 9 / 10 }]) := by
  simp [detectFacesStep, h1, h2]

/-- Witness for the amended C5 at a concrete state and time. -/
theorem no_face_emission_witness :
    (FaceState.mk 0 0 false true).hasNoFace = true ∧
    (10001 : Int) - (FaceState.mk 0 0 false true).lastFaceDetectedTime > NO_FACE_THRESHOLD ∧
    detectFacesStep (FaceState.mk 0 0 false true) [] 1000 10001 =
      (FaceState.mk 10001 0 false true,
       [{ type := .NO_FACE, timestamp := 10001, confidence := 9 / 10 }]) :=
  ⟨rfl, by decide, no_face_emission (FaceState.mk 0 0 false true) 1000 10001 rfl (by decide)⟩

/-- Counterexample to C6: a fresh tracker sees an off-center face at t=0
(arming the deviation timer), zero faces at t=2000, and a single off-center
face again at t=4000. After the single face reappears, lastLookingAwayTime is
still 0, not reset to 4000; consequently the next off-center tick at t=6000
(only 2000 ms after reappearance) already emits FOCUS_LOST, because the
deviation time accumulated before the zero-face gap does count. -/
theorem focus_no_implicit_reset_counterexample :
    (runTicks (initState 0) 1000
      [([offFace], 0), ([], 2000), ([offFace], 4000)]).1.lastLookingAwayTime = 0 ∧
    (runTicks (initState 0) 1000
      [([offFace], 0), ([], 2000), ([offFace], 4000), ([offFace], 6000)]).2 =
      [{ type := .FOCUS_LOST, timestamp := 6000, confidence := 8 / 10 }] := by
  norm_num [runTicks, detectFacesStep, initState, offFace_not_centered,
            NO_FACE_THRESHOLD, FOCUS_LOST_THRESHOLD]

/-- C6 amended: a tick with zero or multiple faces leaves the focus-tracking
fields (isLookingAway and lastLookingAwayTime) unchanged, so no implicit reset
happens when a single face later reappears and deviation time accumulated
before a zero/multiple-face gap keeps counting toward the 5000 ms threshold. -/
theorem focus_fields_preserved (st : FaceState) (faces : List FaceObservation)
    (w : ℚ) (now : Int) (h : faces.length ≠ 1) :
    (detectFacesStep st faces w now).1.isLookingAway = st.isLookingAway ∧
    (detectFacesStep st faces w now).1.lastLookingAwayTime = st.lastLookingAwayTime := by
  match faces with
  | [] =>
      simp only [detectFacesStep]
      split_ifs <;> simp
  | [f] => simp at h
  | a :: b :: l => simp [detectFacesStep]

/-- Witness for the amended C6 at a concrete zero-face tick. -/
theorem focus_fields_preserved_witness :
    (([] : List FaceObservation).length ≠ 1) ∧
    ((detectFacesStep (initState 0) [] 1000 1).1.isLookingAway = (initState 0).isLookingAway ∧
     (detectFacesStep (initState 0) [] 1000 1).1.lastLookingAwayTime = (initState 0).lastLookingAwayTime) :=
  ⟨by decide, focus_fields_preserved (initState 0) [] 1000 1 (by decide)⟩

/-- One classified object from the object detector: prediction.class (here
objClass, since class is reserved) and prediction.score. -/
structure ObjectObservation where
  objClass : String
  score : ℚ
  deriving DecidableEq, Repr

/-- Boolean test that the first character list is an initial segment of the
second. -/
def charsLead : List Char → List Char → Bool
  | [], _ => true
  | _ :: _, [] => false
  | a :: as, b :: bs => a == b && charsLead as bs

/-- Boolean substring containment on character lists, modelling the
JavaScript String.prototype.includes used in detectObjects. -/
def charsContain (needle : List Char) : List Char → Bool
  | [] => charsLead needle []
  | b :: bs => charsLead needle (b :: bs) || charsContain needle bs

/-- The lowercased character sequence of a label, modelling
label.toLowerCase(). -/
def toLowerChars (s : String) : List Char := s.data.map Char.toLower

lemma charsLead_iff (a : List Char) : ∀ c, charsLead a c = true ↔ ∃ t, c = a ++ t := by
  induction a with
  | nil => intro c; simp [charsLead]
  | cons x xs ih =>
      intro c
      cases c with
      | nil => simp [charsLead]
      | cons y ys =>
          simp only [charsLead, Bool.and_eq_true, beq_iff_eq, ih, List.cons_append,
            List.cons.injEq]
          constructor
          · rintro ⟨rfl, t, rfl⟩; exact ⟨t, rfl, rfl⟩
          · rintro ⟨t, rfl, rfl⟩; exact ⟨rfl, t, rfl⟩

lemma charsContain_iff (a : List Char) :
    ∀ c, charsContain a c = true ↔ ∃ p t, c = p ++ a ++ t := by
  intro c
  induction c with
  | nil =>
      simp only [charsContain, charsLead_iff]
      constructor
      · rintro ⟨t, ht⟩; exact ⟨[], t, by simpa using ht⟩
      · rintro ⟨p, t, ht⟩
        rcases List.append_eq_nil.mp ht.symm with ⟨h1, h2⟩
        rcases List.append_eq_nil.mp h1 with ⟨rfl, rfl⟩
        exact ⟨[], by simp⟩
  | cons y ys ih =>
      simp only [charsContain, Bool.or_eq_true, charsLead_iff, ih]
      constructor
      · rintro (⟨t, ht⟩ | ⟨p, t, ht⟩)
        · exact ⟨[], t, by simpa using ht⟩
        · exact ⟨y :: p, t, by simp [ht]⟩
      · rintro ⟨p, t, ht⟩
        cases p with
        | nil => exact Or.inl ⟨t, by simpa using ht⟩
        | cons z p =>
            right
            refine ⟨p, t, ?_⟩
            have := ht
            simp only [List.cons_append, List.cons.injEq] at this
            exact this.2

lemma charsContain_trans {a b c : List Char} (h1 : charsContain a b = true)
    (h2 : charsContain b c = true) : charsContain a c = true := by
  rw [charsContain_iff] at h1 h2 ⊢
  obtain ⟨p1, t1, rfl⟩ := h1
  obtain ⟨p2, t2, rfl⟩ := h2
  exact ⟨p2 ++ p1, t1 ++ t2, by simp⟩

lemma contains_phone_of_cell_phone {c : List Char}
    (h : charsContain "cell phone".data c = true) :
    charsContain "phone".data c = true :=
  charsContain_trans (by decide) h

lemma contains_book_of_notebook {c : List Char}
    (h : charsContain "notebook".data c = true) :
    charsContain "book".data c = true :=
  charsContain_trans (by decide) h

/-- The label classification of DetectionSystem.detectObjects
(src/lib/detection.ts): an else-if chain of case-insensitive substring tests,
phone first, then book, then paper or notebook; at most one kind per object. -/
def classifyObject (label : String) : Option DetectionEventType :=
  let objClass := toLowerChars label
  if charsContain "phone".data objClass || charsContain "cell phone".data objClass then
    some .PHONE_DETECTED
  else if charsContain "book".data objClass then
    some .BOOK_DETECTED
  else if charsContain "paper".data objClass || charsContain "notebook".data objClass then
    some .NOTES_DETECTED
  else none

/-- The event emission loop of DetectionSystem.detectObjects: one event per
qualifying prediction, in prediction order, carrying the prediction's own
confidence score. -/
def detectObjects (preds : List ObjectObservation) (now : Int) : List DetectionEvent :=
  preds.filterMap fun p =>
    (classifyObject p.objClass).map fun t =>
      { type := t, timestamp := now, confidence := p.score }

/-- DetectionSystem.detectObjects including its try/catch in
src/lib/detection.ts: on an object-detector failure the catch only logs, so
the tick emits no object events. -/
def detectObjectsRun (perception : Except String (List ObjectObservation))
    (now : Int) : List DetectionEvent :=
  match perception with
  | .ok preds => detectObjects preds now
  | .error _ => []

/-- Counterexample to C7: the label notebook contains the substring book, so
the earlier else-if branch fires and the emitted event is BOOK_DETECTED, never
NOTES_DETECTED. -/
theorem notebook_counterexample :
    classifyObject "notebook" = some .BOOK_DETECTED ∧
    classifyObject "notebook" ≠ some .NOTES_DETECTED ∧
    detectObjects [{ objClass := "notebook", score := 1 }] 0 =
      [{ type := .BOOK_DETECTED, timestamp := 0, confidence := 1 }] := by
  refine ⟨by decide, by decide, ?_⟩
  have h : classifyObject "notebook" = some DetectionEventType.BOOK_DETECTED := by decide
  simp [detectObjects, List.filterMap_cons, h]

/-- C7 amended: an object whose lowercased label contains the substring
notebook (and not phone) yields exactly one event, of kind BOOK_DETECTED
rather than NOTES_DETECTED, because notebook contains book and the book branch
precedes the paper-or-notebook branch; the confidence of the emitted event
equals the upstream object confidence, unmodified. -/
theorem notebook_yields_book (label : String) (conf : ℚ) (now : Int)
    (h1 : charsContain "notebook".data (toLowerChars label) = true)
    (h2 : charsContain "phone".data (toLowerChars label) = false) :
    detectObjects [{ objClass := label, score := conf }] now =
      [{ type := .BOOK_DETECTED, timestamp := now, confidence := conf }] := by
  have hbook := contains_book_of_notebook h1
  have hcell : charsContain "cell phone".data (toLowerChars label) = false := by
    by_contra hc
    exact absurd (contains_phone_of_cell_phone (by simpa using hc)) (by simp [h2])
  simp [detectObjects, classifyObject, h2, hcell, hbook]

/-- Witness for the amended C7 at the label notebook. -/
theorem notebook_yields_book_witness :
    charsContain "notebook".data (toLowerChars "notebook") = true ∧
    charsContain "phone".data (toLowerChars "notebook") = false ∧
    detectObjects [{ objClass := "notebook", score := 1 }] 5 =
      [{ type := .BOOK_DETECTED, timestamp := 5, confidence := 1 }] :=
  ⟨by decide, by decide, notebook_yields_book "notebook" 1 5 (by decide) (by decide)⟩

/-- C10: each object observation produces at most one event per tick, chosen
by the fixed else-if precedence of detectObjects: phone wins over book, which
wins over paper or notebook; a label matching several categories yields
exactly one event of the highest-precedence kind. -/
theorem object_event_precedence (label : String) (conf : ℚ) (now : Int) :
    (detectObjects [{ objClass := label, score := conf }] now).length ≤ 1 ∧
    (charsContain "phone".data (toLowerChars label) = true →
      detectObjects [{ objClass := label, score := conf }] now =
        [{ type := .PHONE_DETECTED, timestamp := now, confidence := conf }]) ∧
    (charsContain "phone".data (toLowerChars label) = false →
     charsContain "book".data (toLowerChars label) = true →
      detectObjects [{ objClass := label, score := conf }] now =
        [{ type := .BOOK_DETECTED, timestamp := now, confidence := conf }]) ∧
    (charsContain "phone".data (toLowerChars label) = false →
     charsContain "book".data (toLowerChars label) = false →
     (charsContain "paper".data (toLowerChars label) = true ∨
      charsContain "notebook".data (toLowerChars label) = true) →
      detectObjects [{ objClass := label, score := conf }] now =
        [{ type := .NOTES_DETECTED, timestamp := now, confidence := conf }]) := by
  refine ⟨?_, ?_, ?_, ?_⟩
  · simp only [detectObjects, List.filterMap]
    cases classifyObject label <;> simp
  · intro hp
    simp [detectObjects, classifyObject, hp]
  · intro hp hb
    have hcell : charsContain "cell phone".data (toLowerChars label) = false := by
      by_contra hc
      exact absurd (contains_phone_of_cell_phone (by simpa using hc)) (by simp [hp])
    simp [detectObjects, classifyObject, hp, hcell, hb]
  · intro hp hb hpn
    have hcell : charsContain "cell phone".data (toLowerChars label) = false := by
      by_contra hc
      exact absurd (contains_phone_of_cell_phone (by simpa using hc)) (by simp [hp])
    rcases hpn with hpa | hnb
    · simp [detectObjects, classifyObject, hp, hcell, hb, hpa]
    · exact absurd (contains_book_of_notebook hnb) (by simp [hb])

/-- Witness for C10 at a label matching both phone and book: only the
highest-precedence event is emitted. -/
theorem object_event_precedence_witness :
    charsContain "phone".data (toLowerChars "phone book") = true ∧
    detectObjects [{ objClass := "phone book", score := 1 }] 0 =
      [{ type := .PHONE_DETECTED, timestamp := 0, confidence := 1 }] :=
  ⟨by decide, (object_event_precedence "phone book" 1 0).2.1 (by decide)⟩

/-- The per-kind counts computed by saveData in
src/lib/actions/interview-actions.ts: one filter of the event list per kind. -/
structure EventCounts where
  focusLostCount : Nat
  phoneDetectedCount : Nat
  multipleFacesCount : Nat
  noFaceCount : Nat
  notesDetectedCount : Nat
  bookDetectedCount : Nat
  deriving DecidableEq, Repr

/-- eventCounts as computed in saveData: six filters of the same list. -/
def eventCounts (events : List DetectionEvent) : EventCounts :=
  { focusLostCount := (events.filter fun e => decide (e.type = .FOCUS_LOST)).length
    phoneDetectedCount := (events.filter fun e => decide (e.type = .PHONE_DETECTED)).length
    multipleFacesCount := (events.filter fun e => decide (e.type = .MULTIPLE_FACES)).length
    noFaceCount := (events.filter fun e => decide (e.type = .NO_FACE)).length
    notesDetectedCount := (events.filter fun e => decide (e.type = .NOTES_DETECTED)).length
    bookDetectedCount := (events.filter fun e => decide (e.type = .BOOK_DETECTED)).length }

/-- totalEvents as persisted by saveData: the length of the event list. -/
def totalEvents (events : List DetectionEvent) : Nat := events.length

/-- C8: for every event list accepted by saveData, the persisted totalEvents
equals the length of the event log and equals the sum of the six per-kind
counts, since every event type is one of the six kinds. -/
theorem counts_partition (events : List DetectionEvent) :
    totalEvents events = events.length ∧
    totalEvents events =
      (eventCounts events).focusLostCount + (eventCounts events).noFaceCount +
      (eventCounts events).multipleFacesCount + (eventCounts events).phoneDetectedCount +
      (eventCounts events).notesDetectedCount + (eventCounts events).bookDetectedCount := by
  refine ⟨rfl, ?_⟩
  simp only [totalEvents, eventCounts]
  induction events with
  | nil => simp
  | cons e es ih =>
      cases h : e.type <;>
        simp only [List.filter_cons, h, List.length_cons, decide_True, decide_False,
          if_true, if_false] <;>
        simp <;> omega

/-- basicFaceDetection from the unnamed duplicate of the detection module
(src/unnamed/part_000): the randomized fallback run by the catch handler of
its detectFaces. The two Math.random draws are explicit parameters: the
simulated face count (1 with probability 0.9, else 0) and the simulated
looking-away flag (true with probability 0.2). -/
def basicFaceDetection (st : FaceState) (now : Int)
    (simulatedFaceCount : Nat) (simulatedLookingAway : Bool) :
    FaceState × List DetectionEvent :=
  if simulatedFaceCount = 0 then
    let st1 := if !st.hasNoFace then
        { st with lastFaceDetectedTime := now, hasNoFace := true }
      else st
    if now - st1.lastFaceDetectedTime > NO_FACE_THRESHOLD then
      ({ st1 with lastFaceDetectedTime := now },
       [{ type := .NO_FACE, timestamp := now, confidence := 7 / 10 }])
    else (st1, [])
  else
    let st1 := { st with hasNoFace := false }
    if simulatedLookingAway then
      let st2 := if !st1.isLookingAway then
          { st1 with lastLookingAwayTime := now, isLookingAway := true }
        else st1
      if now - st2.lastLookingAwayTime > FOCUS_LOST_THRESHOLD then
        ({ st2 with lastLookingAwayTime := now },
         [{ type := .FOCUS_LOST, timestamp := now, confidence := 6 / 10 }])
      else (st2, [])
    else ({ st1 with isLookingAway := false }, [])

/-- detectFaces of the unnamed duplicate (src/unnamed/part_000): its catch
handler does not leave the state alone but falls back to basicFaceDetection. -/
def detectFacesFallback (st : FaceState)
    (perception : Except String (List FaceObservation)) (videoWidth : ℚ)
    (now : Int) (simulatedFaceCount : Nat) (simulatedLookingAway : Bool) :
    FaceState × List DetectionEvent :=
  match perception with
  | .ok faces => detectFacesStep st faces videoWidth now
  | .error _ => basicFaceDetection st now simulatedFaceCount simulatedLookingAway

/-- Counterexample to C9: in the part_000 variant a tick whose perception step
throws does not leave the tracker state unchanged and can even emit events.
With the no-face condition active since time 0 and a failing perception at
now = 15000, a simulated zero-face draw makes the catch path emit a NO_FACE
event with confidence 0.7 and re-arm lastFaceDetectedTime. -/
theorem perception_failure_fallback_counterexample :
    detectFacesFallback (FaceState.mk 0 0 false true)
      (Except.error "model error") 1000 15000 0 false =
    (FaceState.mk 15000 0 false true,
     [{ type := .NO_FACE, timestamp := 15000, confidence := 7 / 10 }]) := by
  norm_num [detectFacesFallback, basicFaceDetection, NO_FACE_THRESHOLD]

/-- C9 amended: in DetectionSystem.detectFaces and detectObjects of
src/lib/detection.ts, a tick whose perception step throws produces no
violation events and leaves all tracker timing state unchanged (the catch
handlers only log); the part_000 variant instead falls back to a randomized
basic detection in its catch, which may mutate state and emit events. -/
theorem perception_failure_no_effect (st : FaceState) (msg : String)
    (w : ℚ) (now : Int) (objMsg : String) :
    detectFaces st (Except.error msg) w now = (st, []) ∧
    detectObjectsRun (Except.error objMsg) now = [] :=
  ⟨rfl, rfl⟩
